import Mathlib

/-!
Shallow embedding of the aurora-restore pipeline (Python Lambda handlers and
shared utilities) and proofs about the behaviour its specification describes.

Python dictionaries that carry step state are embedded as association lists of
string keys and a small value type `Val`.  Side effects (DynamoDB writes, audit
rows, CloudWatch metrics, Lambda invocations) are embedded as an explicit list
of `Effect` values produced by each handler, and responses as a `Response`
structure mirroring the `{statusCode, body}` envelope.
-/

/-- Values stored in step-state dictionaries (Python dict values).
`infoDict` embeds the one nested dict the handlers build: `verify_restore`'s
`schema_info = {'schemas': [...], 'tables': [{'schema':…,'name':…}, ...]}`. -/
inductive Val where
  | s (v : String)
  | i (v : Int)
  | b (v : Bool)
  | none
  | infoDict (schemas : List String) (tables : List (String × String))
deriving Repr, DecidableEq

/-- A Python dict embedded as an association list (insertion order kept). -/
abbrev Dict := List (String × Val)

/-- Dict assignment `d[k] = v`: replaces an existing binding, else appends. -/
def dictSet (d : Dict) (k : String) (v : Val) : Dict :=
  if d.any (fun p => p.1 = k) then
    d.map (fun p => if p.1 = k then (k, v) else p)
  else
    d ++ [(k, v)]

/-- Dict lookup `d.get(k)` returning `Option`. -/
def dictGet (d : Dict) (k : String) : Option Val :=
  (d.find? (fun p => p.1 = k)).map (·.2)

/-- Python truthiness of a dict value, used by `state.get('success', False)`
style checks. -/
def truthy : Val → Bool
  | Val.s v => v ≠ ""
  | Val.i v => v ≠ 0
  | Val.b v => v
  | Val.none => false
  | Val.infoDict _ _ => true

/-- `state.get(k, False)` truthiness: default false when the key is absent. -/
def dictTruthy (d : Dict) (k : String) : Bool :=
  match dictGet d k with
  | some v => truthy v
  | Option.none => false

/-- The argument set of `lambda_client.invoke` as issued by
`utils/common.py: trigger_next_step` (FunctionName, InvocationType, Payload).
The call carries no scheduling or delay information. -/
structure Invocation where
  functionName : String
  invocationType : String
  payload : Dict
deriving Repr, DecidableEq

/-- `utils/common.py: trigger_next_step(operation_id, next_step, event_data,
delay_seconds)`.  The body sets `event_data['operation_id']`, builds the
function name `aurora-restore-<next_step>` and invokes the Lambda with
`InvocationType='Event'`; the `delay_seconds` argument appears nowhere in the
body after the signature. -/
def trigger_next_step (operationId : String) (nextStep : String)
    (eventData : Dict) (delaySeconds : Nat) : Invocation :=
  let _ := delaySeconds
  let ed := dictSet eventData "operation_id" (Val.s operationId)
  { functionName := "aurora-restore-" ++ nextStep
    invocationType := "Event"
    payload := ed }

/-- Observable side effects of a handler run. -/
inductive Effect where
  | save (operationId : String) (item : Dict) (ok : Bool)
  | audit (operationId : String) (eventType : String) (status : String) (details : Dict)
  | metric (operationId : String) (name : String)
  | invoke (inv : Invocation)
deriving Repr, DecidableEq

/-- The `{statusCode, body}` response envelope; `message` is the body's
`message` field. -/
structure Response where
  statusCode : Nat
  message : String
deriving Repr, DecidableEq

/-- `utils/common.py: save_state` - the item written by `put_item`: the state
dict with `operation_id` forced and `timestamp` added when absent.  `putOk`
models whether the DynamoDB write raised (the function catches the exception
and returns `False`; it never raises to the caller). -/
def save_state_item (operationId : String) (state : Dict) (now : Int) : Dict :=
  let st := dictSet state "operation_id" (Val.s operationId)
  if (dictGet st "timestamp").isSome then st else dictSet st "timestamp" (Val.i now)

/-- `save_state`'s return value: `True` on a durable write, `False` when the
write failed (the error is only logged). -/
def save_state_result (putOk : Bool) : Bool := putOk

/-- Whether an effect is a step dispatch (Lambda invocation). -/
def isInvoke : Effect → Bool
  | Effect.invoke _ => true
  | _ => false

/-- Whether an effect is an audit-table write. -/
def isAudit : Effect → Bool
  | Effect.audit _ _ _ _ => true
  | _ => false

/-- Whether an effect is a state-store write whose put failed. -/
def isFailedSave : Effect → Bool
  | Effect.save _ _ ok => !ok
  | _ => false

/-!
`aurora-restore-copy-snapshot/lambda_function.py`
-/

/-- Lines 53-67: after `load_state`, an empty state means a fresh start (no
early return); a non-empty state whose `success` is falsy returns 400
"Previous step failed" immediately - with no audit event, no metric, no state
write and no dispatch.  `some` is the early return, `none` means continue. -/
def copy_snapshot_prev_check (operationId : String) (state : Dict) :
    Option (Response × List Effect) :=
  let _ := operationId
  if state.isEmpty then Option.none
  else if dictTruthy state "success" then Option.none
  else some ({ statusCode := 400, message := "Previous step failed" }, [])

/-- Lines 244-256: the state dict written after `copy_db_cluster_snapshot`
succeeded. -/
def copy_snapshot_state (operationId snapshot_name snapshot_arn source_region
    target_region target_snapshot_name target_snapshot_arn copy_status : String)
    (now : Int) : Dict :=
  [("operation_id", Val.s operationId),
   ("snapshot_name", Val.s snapshot_name),
   ("snapshot_arn", Val.s snapshot_arn),
   ("source_region", Val.s source_region),
   ("target_region", Val.s target_region),
   ("target_snapshot_name", Val.s target_snapshot_name),
   ("target_snapshot_arn", Val.s target_snapshot_arn),
   ("copy_status", Val.s copy_status),
   ("status", Val.s "copying"),
   ("timestamp", Val.i now),
   ("success", Val.b true)]

/-- Lines 243-302: the tail of the cross-region branch once the copy call
succeeded: save state, audit (default status "success"), duration metric, then
`trigger_next_step(..., next_step='check_copy_status', ..., delay_seconds=60)`
and a 200 response. -/
def copy_snapshot_initiated (putOk : Bool) (operationId snapshot_name
    snapshot_arn source_region target_region target_snapshot_name
    target_snapshot_arn copy_status : String) (now : Int) :
    Response × List Effect :=
  let state := copy_snapshot_state operationId snapshot_name snapshot_arn
    source_region target_region target_snapshot_name target_snapshot_arn
    copy_status now
  ({ statusCode := 200, message := "Snapshot copy initiated" },
   [Effect.save operationId (save_state_item operationId state now) putOk,
    Effect.audit operationId "copy_snapshot" "success"
      [("snapshot_name", Val.s snapshot_name),
       ("snapshot_arn", Val.s snapshot_arn),
       ("source_region", Val.s source_region),
       ("target_region", Val.s target_region),
       ("target_snapshot_name", Val.s target_snapshot_name),
       ("target_snapshot_arn", Val.s target_snapshot_arn),
       ("copy_status", Val.s copy_status)],
    Effect.metric operationId "copy_snapshot_duration",
    Effect.invoke (trigger_next_step operationId "check_copy_status" state 60)])

/-!
`aurora-restore-check-copy-status/lambda_function.py`
-/

/-- Lines 58-120: empty state returns 400 with an audit event of status
"failed" and a failure metric; a state whose `success` is falsy returns 400
"Previous step failed" with a `check_copy_status_skipped` metric and an audit
event of status "skipped" (not "failed").  Neither path dispatches. -/
def check_copy_status_prev_check (operationId : String) (state : Dict) :
    Option (Response × List Effect) :=
  if state.isEmpty then
    some ({ statusCode := 400,
            message := "No previous state found for operation " ++ operationId },
      [Effect.audit operationId "check_copy_status" "failed"
        [("error", Val.s ("No previous state found for operation " ++ operationId))],
       Effect.metric operationId "check_copy_status_failures"])
  else if dictTruthy state "success" then Option.none
  else
    some ({ statusCode := 400, message := "Previous step failed" },
      [Effect.metric operationId "check_copy_status_skipped",
       Effect.audit operationId "check_copy_status" "skipped"
         [("reason", Val.s "Previous step failed"),
          ("previous_error", (dictGet state "error").getD (Val.s "Unknown error"))]])

/-!
`aurora-restore-check-restore-status/lambda_function.py`
-/

/-- The module's import list from `utils.common` (lines 12-23).  `load_state`
is used at line 49 but absent here; `trigger_next_step` is imported but never
called anywhere in the module. -/
def check_restore_status_imported_names : List String :=
  ["logger", "get_config", "log_audit_event", "update_metrics",
   "validate_required_params", "validate_region", "get_operation_id",
   "save_state", "handle_aws_error", "trigger_next_step"]

/-- Lines 216-227: the state written when the cluster status is `available`:
endpoint, port, engine and engine version with `success=True`. -/
def check_restore_status_available_state (operationId target_cluster_id
    target_region : String) (cluster_endpoint cluster_port engine
    engine_version : Val) : Dict :=
  [("operation_id", Val.s operationId),
   ("target_cluster_id", Val.s target_cluster_id),
   ("target_region", Val.s target_region),
   ("cluster_status", Val.s "available"),
   ("cluster_endpoint", cluster_endpoint),
   ("cluster_port", cluster_port),
   ("engine", engine),
   ("engine_version", engine_version),
   ("success", Val.b true)]

/-- Lines 215-267, the `status == 'available'` branch: save the state above,
log an audit event of status "success", emit the duration metric and return
200 "Cluster restore complete".  The branch contains no `trigger_next_step`
call: nothing is dispatched. -/
def check_restore_status_available (putOk : Bool) (operationId
    target_cluster_id target_region : String) (cluster_endpoint cluster_port
    engine engine_version : Val) (now : Int) : Response × List Effect :=
  let state_update := check_restore_status_available_state operationId
    target_cluster_id target_region cluster_endpoint cluster_port engine
    engine_version
  ({ statusCode := 200, message := "Cluster restore complete" },
   [Effect.save operationId (save_state_item operationId state_update now) putOk,
    Effect.audit operationId "check_restore_status" "success"
      [("cluster_id", Val.s target_cluster_id),
       ("region", Val.s target_region),
       ("status", Val.s "available"),
       ("cluster_endpoint", cluster_endpoint),
       ("cluster_port", cluster_port),
       ("message", Val.s "Cluster restore complete")],
    Effect.metric operationId "check_restore_status_duration"])

/-!
`aurora-restore-check-delete-status/lambda_function.py`

The module declares `from utils.state_utils import trigger_next_step`, but
`utils/state_utils.py` defines no such function; the only `trigger_next_step`
in the repository is the one in `utils/common.py` embedded above, and the call
in `handle_cluster_deleted` passes no delay (the signature's default is 0).
`self.save_state` has no definition on `BaseHandler` either
(`base_handler.py` defines only `save_initial_state`); the write the call
expresses is embedded as a save effect of the state dict built at the call
site.
-/

/-- `CheckDeleteStatusHandler.check_cluster_status` (lines 92-119): describe
the cluster; a response whose `DBClusters` list is non-empty yields the first
cluster's status, an empty list yields `none` (deleted), a
`DBClusterNotFoundFault` error is swallowed into `none`, any other error is
re-raised.  The describe outcome is the `Except` argument. -/
def check_cluster_status (describeResult : Except String (List String)) :
    Except String (Option String) :=
  match describeResult with
  | Except.ok clusterStatuses => Except.ok clusterStatuses.head?
  | Except.error e =>
      if e = "DBClusterNotFoundFault" then Except.ok Option.none
      else Except.error e

/-- Lines 121-154 `handle_cluster_deleted`: save a `status='deleted'`,
`success=True` state, dispatch `restore_snapshot`, and return the completion
payload. -/
def handle_cluster_deleted (operationId cluster_id region : String) :
    Dict × List Effect :=
  let state : Dict :=
    [("target_cluster_id", Val.s cluster_id),
     ("target_region", Val.s region),
     ("status", Val.s "deleted"),
     ("success", Val.b true)]
  ([("message", Val.s "Cluster deletion complete"),
    ("cluster_id", Val.s cluster_id),
    ("region", Val.s region),
    ("next_step", Val.s "restore_snapshot")],
   [Effect.save operationId state true,
    Effect.invoke (trigger_next_step operationId "restore_snapshot" state 0)])

/-- Lines 156-183 `handle_cluster_deleting`: save the in-progress status with
`success=True` and return a progress payload.  The body contains no
`trigger_next_step` call and reads no retry-delay configuration. -/
def handle_cluster_deleting (operationId cluster_id region status : String) :
    Dict × List Effect :=
  let state : Dict :=
    [("target_cluster_id", Val.s cluster_id),
     ("target_region", Val.s region),
     ("status", Val.s status),
     ("success", Val.b true)]
  ([("message", Val.s "Cluster deletion in progress"),
    ("cluster_id", Val.s cluster_id),
    ("region", Val.s region),
    ("status", Val.s status)],
   [Effect.save operationId state true])

/-- `CheckDeleteStatusHandler.process` (lines 185-237) after config and client
setup: check the cluster status, take the deleted / deleting branch, append
the duration metric.  `delete_status_retry_delay` is the resolved config value
(present in every config source, `config_manager.py` line 108); the method
never reads it. -/
def check_delete_status_process (delete_status_retry_delay : Nat)
    (operationId cluster_id region : String)
    (describeResult : Except String (List String)) :
    Except String (Dict × List Effect) :=
  let _ := delete_status_retry_delay
  match check_cluster_status describeResult with
  | Except.error e => Except.error e
  | Except.ok Option.none =>
      let r := handle_cluster_deleted operationId cluster_id region
      Except.ok (r.1, r.2 ++ [Effect.metric operationId "check_delete_status_duration"])
  | Except.ok (some status) =>
      let r := handle_cluster_deleting operationId cluster_id region status
      Except.ok (r.1, r.2 ++ [Effect.metric operationId "check_delete_status_duration"])

/-!
`aurora-restore-verify-restore/lambda_function.py`

The success tail of `VerifyRestoreHandler.process` (lines 293-328).  The
`schemas` and `tables` lists are the rows returned by the two
`information_schema` queries of `verify_schema`.
-/

/-- Lines 294-302: the state dict persisted on successful verification,
holding the full `schema_info` (schemas and tables). -/
def verify_restore_state_data (cluster_id endpoint : String) (port : Int)
    (schemas : List String) (tables : List (String × String)) : Dict :=
  [("target_cluster_id", Val.s cluster_id),
   ("cluster_endpoint", Val.s endpoint),
   ("cluster_port", Val.i port),
   ("verification_status", Val.s "completed"),
   ("schema_info", Val.infoDict schemas tables),
   ("status", Val.s "completed"),
   ("success", Val.b true)]

/-- Lines 293-328: save the state, audit `SUCCESS` with the schema and table
counts, emit the three metrics, dispatch `notify_completion` and return a 200
response. -/
def verify_restore_success (operationId cluster_id endpoint : String)
    (port : Int) (schemas : List String) (tables : List (String × String)) :
    Response × List Effect :=
  let state_data := verify_restore_state_data cluster_id endpoint port schemas tables
  ({ statusCode := 200, message := "Successfully verified cluster " ++ cluster_id },
   [Effect.save operationId state_data true,
    Effect.audit operationId "verify_restore" "SUCCESS"
      [("target_cluster_id", Val.s cluster_id),
       ("schema_count", Val.i schemas.length),
       ("table_count", Val.i tables.length)],
    Effect.metric operationId "verification_success",
    Effect.metric operationId "schema_count",
    Effect.metric operationId "table_count",
    Effect.invoke (trigger_next_step operationId "notify_completion" state_data 0)])

/-!
`aurora-restore-snapshot-check/lambda_function.py`
-/

/-- A calendar date as parsed by `datetime.strptime(date_str, '%Y-%m-%d')`. -/
structure Date where
  year : Nat
  month : Nat
  day : Nat
deriving Repr, DecidableEq

/-- Two-digit zero padding used by `strftime('%Y-%m-%d')` for month and day. -/
def pad2 (n : Nat) : String :=
  if n < 10 then "0" ++ toString n else toString n

/-- `target_date.strftime('%Y-%m-%d')` (four-digit years assumed). -/
def formatDate (d : Date) : String :=
  toString d.year ++ "-" ++ pad2 d.month ++ "-" ++ pad2 d.day

/-- Line 165: the derived snapshot name,
`f"{snapshot_prefix}-{target_date.strftime('%Y-%m-%d')}"`.  The source cluster
id does not occur in the expression. -/
def snapshot_check_name (snapPfx : String) (target_date : Date) : String :=
  snapPfx ++ "-" ++ formatDate target_date

/-- Modelled from the spec's words for comparison (spec 4.6 and claim C7):
`snapshot_name = f"{snapshot_prefix}-{source_cluster_id}-{date}"`.  This is
the claimed derivation, not the code's. -/
def claimed_snapshot_name (snapPfx source_cluster_id : String)
    (target_date : Date) : String :=
  snapPfx ++ "-" ++ source_cluster_id ++ "-" ++ formatDate target_date

/-- The fields of a `DBClusterSnapshot` entry that the handler reads. -/
structure Snapshot where
  identifier : String
  arn : String
  status : String
  snapshotType : String
  allocatedStorage : Int
  storageEncrypted : Bool
  createTime : Option String
deriving Repr, DecidableEq

/-- `check_snapshot` (lines 478-507): describe the snapshots of one scope and
scan for the given name.  A `ClientError` from the describe call (the `Except`
error case) is logged and swallowed into "not found".  The source returns the
pair `(found, details)` with `found = details.isSome`; the embedding returns
the `Option` alone. -/
def check_snapshot (describeResult : Except String (List Snapshot))
    (snapshot_name : String) : Option Snapshot :=
  match describeResult with
  | Except.ok snaps => snaps.find? (fun s => s.identifier = snapshot_name)
  | Except.error _ => Option.none

/-- Lines 251-267: the scope search - `shared` first, then `manual` if not
found.  No other scope is consulted. -/
def snapshot_check_search (describe : String → Except String (List Snapshot))
    (snapshot_name : String) : Option Snapshot :=
  match check_snapshot (describe "shared") snapshot_name with
  | some s => some s
  | Option.none => check_snapshot (describe "manual") snapshot_name

/-- Lines 237-246: the initial `status='checking'` state saved before the
search. -/
def snapshot_check_initial_state (operationId snapshot_name source_region
    source_cluster_id : String) (targetRegionCfg targetClusterCfg : Val)
    (now : Int) : Dict :=
  [("operation_id", Val.s operationId),
   ("snapshot_name", Val.s snapshot_name),
   ("source_region", Val.s source_region),
   ("source_cluster_id", Val.s source_cluster_id),
   ("target_region", targetRegionCfg),
   ("target_cluster_id", targetClusterCfg),
   ("status", Val.s "checking"),
   ("timestamp", Val.i now)]

/-- Line 271: the not-found error message. -/
def snapshot_check_not_found_msg (snapshot_name source_region : String) : String :=
  "Snapshot " ++ snapshot_name ++
    " not found in shared or manual snapshots in region " ++ source_region

/-- Lines 303-314: the failed state written when the snapshot is absent from
both searched scopes. -/
def snapshot_check_failed_state (operationId snapshot_name source_region
    source_cluster_id : String) (targetRegionCfg targetClusterCfg : Val)
    (now : Int) : Dict :=
  [("operation_id", Val.s operationId),
   ("snapshot_name", Val.s snapshot_name),
   ("source_region", Val.s source_region),
   ("source_cluster_id", Val.s source_cluster_id),
   ("target_region", targetRegionCfg),
   ("target_cluster_id", targetClusterCfg),
   ("status", Val.s "failed"),
   ("error", Val.s (snapshot_check_not_found_msg snapshot_name source_region)),
   ("timestamp", Val.i now),
   ("success", Val.b false)]

/-- Lines 333-349: the success state holding the found snapshot's details. -/
def snapshot_check_found_state (operationId snapshot_name source_region
    source_cluster_id : String) (targetRegionCfg targetClusterCfg : Val)
    (snap : Snapshot) (now : Int) : Dict :=
  [("operation_id", Val.s operationId),
   ("snapshot_name", Val.s snapshot_name),
   ("snapshot_arn", Val.s snap.arn),
   ("source_region", Val.s source_region),
   ("target_region", targetRegionCfg),
   ("source_cluster_id", Val.s source_cluster_id),
   ("target_cluster_id", targetClusterCfg),
   ("snapshot_type", Val.s snap.snapshotType),
   ("snapshot_status", Val.s snap.status),
   ("snapshot_size", Val.i snap.allocatedStorage),
   ("snapshot_encrypted", Val.b snap.storageEncrypted),
   ("snapshot_created", match snap.createTime with
                        | some c => Val.s c
                        | Option.none => Val.none),
   ("timestamp", Val.i now),
   ("status", Val.s "found"),
   ("success", Val.b true)]

/-- The `try` body of the handler (lines 236-394): save the initial state,
search `shared` then `manual`, and either persist the failed state and answer
404, or persist the found state, audit, emit the duration metric, dispatch
`copy_snapshot` and answer 200.  `save_state`'s boolean result (`putOk`) is
never consulted.  `ClientError`s raised inside the scope describes never reach
the handler's `except ClientError` arm: `check_snapshot` swallows them. -/
def snapshot_check_core (putOk : Bool) (operationId snapPfx : String)
    (target_date : Date) (source_region source_cluster_id : String)
    (targetRegionCfg targetClusterCfg : Val)
    (describe : String → Except String (List Snapshot)) (now : Int) :
    Response × List Effect :=
  let snapshot_name := snapshot_check_name snapPfx target_date
  let initial_state := snapshot_check_initial_state operationId snapshot_name
    source_region source_cluster_id targetRegionCfg targetClusterCfg now
  let saveInitial := Effect.save operationId
    (save_state_item operationId initial_state now) putOk
  match snapshot_check_search describe snapshot_name with
  | Option.none =>
      let error_msg := snapshot_check_not_found_msg snapshot_name source_region
      let failed_state := snapshot_check_failed_state operationId snapshot_name
        source_region source_cluster_id targetRegionCfg targetClusterCfg now
      ({ statusCode := 404, message := error_msg },
       [saveInitial,
        Effect.audit operationId "snapshot_check" "failed"
          [("error", Val.s error_msg),
           ("source_region", Val.s source_region),
           ("snapshot_name", Val.s snapshot_name),
           ("source_cluster_id", Val.s source_cluster_id)],
        Effect.metric operationId "snapshot_check_duration",
        Effect.metric operationId "snapshot_check_failures",
        Effect.save operationId (save_state_item operationId failed_state now) putOk])
  | some snap =>
      let state := snapshot_check_found_state operationId snapshot_name
        source_region source_cluster_id targetRegionCfg targetClusterCfg snap now
      ({ statusCode := 200, message := "Snapshot found successfully" },
       [saveInitial,
        Effect.save operationId (save_state_item operationId state now) putOk,
        Effect.audit operationId "snapshot_check" "success"
          [("snapshot_name", Val.s snapshot_name),
           ("snapshot_arn", Val.s snap.arn),
           ("source_region", Val.s source_region),
           ("snapshot_status", Val.s snap.status)],
        Effect.metric operationId "snapshot_check_duration",
        Effect.invoke (trigger_next_step operationId "copy_snapshot" state 0)])

/-!
`utils/config_manager.py: ConfigManager`
-/

/-- The value of a decimal digit character, none for a non-digit. -/
def digitVal (c : Char) : Option Nat :=
  if c = '0' then some 0 else if c = '1' then some 1
  else if c = '2' then some 2 else if c = '3' then some 3
  else if c = '4' then some 4 else if c = '5' then some 5
  else if c = '6' then some 6 else if c = '7' then some 7
  else if c = '8' then some 8 else if c = '9' then some 9
  else Option.none

/-- Accumulate decimal digits; any non-digit aborts the parse. -/
def parseDigitsAcc : List Char → Nat → Option Nat
  | [], acc => some acc
  | c :: cs, acc =>
      match digitVal c with
      | some d => parseDigitsAcc cs (acc * 10 + d)
      | Option.none => Option.none

/-- A non-empty all-digit run, as a number. -/
def parseDigits (cs : List Char) : Option Nat :=
  match cs with
  | [] => Option.none
  | _ => parseDigitsAcc cs 0

/-- Python's `int(value)` for base 10: surrounding blanks stripped, optional
sign, then at least one digit (digit-group underscores are not modelled;
no configuration value uses them). -/
def parsePyInt (s : String) : Option Int :=
  let cs := s.data.dropWhile (fun c => c = ' ')
  let cs := (cs.reverse.dropWhile (fun c => c = ' ')).reverse
  match cs with
  | [] => Option.none
  | c :: rest =>
      if c = '-' then (parseDigits rest).map (fun n => -(n : Int))
      else if c = '+' then (parseDigits rest).map (fun n => (n : Int))
      else (parseDigits (c :: rest)).map (fun n => (n : Int))

/-- The integer-typed configuration keys (the list at lines 187-190 and
221-224). -/
def intConfigKeys : List String :=
  ["copy_status_retry_delay", "restore_status_retry_delay",
   "delete_status_retry_delay", "max_copy_attempts",
   "copy_check_interval", "max_restore_attempts",
   "restore_check_interval", "port", "db_connection_timeout"]

/-- The boolean-typed configuration keys (lines 196 and 230). -/
def boolConfigKeys : List String :=
  ["skip_final_snapshot", "deletion_protection", "archive_snapshot"]

/-- The accepted true spellings, compared after `value.lower()`. -/
def boolTrueStrings : List String := ["true", "1", "yes", "y"]

/-- `_get_default_config` (lines 93-125), parameterised by the instance's
environment, region and account id. -/
def ConfigManager_default_config (environment region account_id : String) : Dict :=
  [("source_region", Val.s ""),
   ("target_region", Val.s ""),
   ("source_cluster_id", Val.s ""),
   ("target_cluster_id", Val.s ""),
   ("snapshot_prefix", Val.s "aurora-snapshot"),
   ("vpc_security_group_ids", Val.s ""),
   ("db_subnet_group_name", Val.s ""),
   ("kms_key_id", Val.s ""),
   ("master_credentials_secret_id", Val.s "aurora-restore/master-db-credentials"),
   ("app_credentials_secret_id", Val.s "aurora-restore/app-db-credentials"),
   ("copy_status_retry_delay", Val.i 60),
   ("restore_status_retry_delay", Val.i 60),
   ("delete_status_retry_delay", Val.i 60),
   ("max_copy_attempts", Val.i 60),
   ("copy_check_interval", Val.i 30),
   ("max_restore_attempts", Val.i 60),
   ("restore_check_interval", Val.i 30),
   ("skip_final_snapshot", Val.b true),
   ("port", Val.i 5432),
   ("deletion_protection", Val.b false),
   ("db_connection_timeout", Val.i 30),
   ("archive_snapshot", Val.b true),
   ("environment", Val.s environment),
   ("region", Val.s region),
   ("account_id", Val.s account_id),
   ("state_table_name", Val.s "aurora-restore-state"),
   ("audit_table_name", Val.s "aurora-restore-audit"),
   ("log_level", Val.s "INFO"),
   ("sns_topic_arn",
     Val.s ("arn:aws:sns:" ++ region ++ ":" ++ account_id ++
       ":aurora-restore-notifications"))]

/-- The `env_var_mapping` table of `_load_from_env_vars` (lines 153-180). -/
def env_var_mapping : List (String × String) :=
  [("SOURCE_REGION", "source_region"),
   ("TARGET_REGION", "target_region"),
   ("SOURCE_CLUSTER_ID", "source_cluster_id"),
   ("TARGET_CLUSTER_ID", "target_cluster_id"),
   ("SNAPSHOT_PREFIX", "snapshot_prefix"),
   ("VPC_SECURITY_GROUP_IDS", "vpc_security_group_ids"),
   ("DB_SUBNET_GROUP_NAME", "db_subnet_group_name"),
   ("KMS_KEY_ID", "kms_key_id"),
   ("MASTER_CREDENTIALS_SECRET_ID", "master_credentials_secret_id"),
   ("APP_CREDENTIALS_SECRET_ID", "app_credentials_secret_id"),
   ("COPY_STATUS_RETRY_DELAY", "copy_status_retry_delay"),
   ("RESTORE_STATUS_RETRY_DELAY", "restore_status_retry_delay"),
   ("DELETE_STATUS_RETRY_DELAY", "delete_status_retry_delay"),
   ("MAX_COPY_ATTEMPTS", "max_copy_attempts"),
   ("COPY_CHECK_INTERVAL", "copy_check_interval"),
   ("MAX_RESTORE_ATTEMPTS", "max_restore_attempts"),
   ("RESTORE_CHECK_INTERVAL", "restore_check_interval"),
   ("SKIP_FINAL_SNAPSHOT", "skip_final_snapshot"),
   ("PORT", "port"),
   ("DELETION_PROTECTION", "deletion_protection"),
   ("DB_CONNECTION_TIMEOUT", "db_connection_timeout"),
   ("ARCHIVE_SNAPSHOT", "archive_snapshot"),
   ("STATE_TABLE_NAME", "state_table_name"),
   ("AUDIT_TABLE_NAME", "audit_table_name"),
   ("LOG_LEVEL", "log_level"),
   ("SNS_TOPIC_ARN", "sns_topic_arn")]

/-- The per-variable coercion of `_load_from_env_vars` (lines 186-197):
`int(value)` is `parsePyInt`; on `ValueError` only a warning is logged and
`value` keeps its string form - which the caller then assigns (line 199)
regardless. -/
def ConfigManager_env_coerce (config_key value : String) : Val :=
  if intConfigKeys.contains config_key then
    match parsePyInt value with
    | some n => Val.i n
    | Option.none => Val.s value
  else if boolConfigKeys.contains config_key then
    Val.b (boolTrueStrings.contains value.toLower)
  else Val.s value

/-- `_load_from_env_vars` (lines 151-200): for every mapping entry whose
environment variable is set, coerce and assign - the assignment at line 199
runs on the coercion-failure path too. -/
def ConfigManager_load_from_env_vars (config : Dict)
    (env : List (String × String)) : Dict :=
  List.foldl
    (fun cfg p =>
      match env.find? (fun q => q.1 = p.1) with
      | some q => dictSet cfg p.2 (ConfigManager_env_coerce p.2 q.2)
      | Option.none => cfg)
    config env_var_mapping

/-- `_validate_config` (lines 216-231): a second coercion pass over every
string-valued entry; an unparseable integer again only logs a warning and the
string value stays bound. -/
def ConfigManager_validate_config (config : Dict) : Dict :=
  config.map (fun p =>
    match p.2 with
    | Val.s v =>
        if intConfigKeys.contains p.1 then
          match parsePyInt v with
          | some n => (p.1, Val.i n)
          | Option.none => (p.1, Val.s v)
        else if boolConfigKeys.contains p.1 then
          (p.1, Val.b (boolTrueStrings.contains v.toLower))
        else p
    | _ => p)

/-- `load_config(event=None, state=None)` when the SSM parameter fetch fails
(its exception is caught and leaves the config untouched): defaults, then
environment variables, then `_validate_config`. -/
def ConfigManager_resolve_env_only (environment region account_id : String)
    (env : List (String × String)) : Dict :=
  ConfigManager_validate_config
    (ConfigManager_load_from_env_vars
      (ConfigManager_default_config environment region account_id) env)

/-!
Concrete inputs used by counterexamples and witnesses.
-/

/-- The statuses of the audit events in an effect list, in order. -/
def auditStatuses (effs : List Effect) : List String :=
  effs.filterMap (fun e =>
    match e with
    | Effect.audit _ _ st _ => some st
    | _ => Option.none)

/-- A latest StepRecord whose step failed, as `snapshot_check` writes one. -/
def prevFailedState : Dict :=
  [("operation_id", Val.s "op-1718000000-deadbeef"),
   ("status", Val.s "failed"),
   ("error", Val.s "snapshot not found"),
   ("timestamp", Val.i 1718000000),
   ("success", Val.b false)]

/-- A shared snapshot matching the name derived for 2024-06-10. -/
def sharedSnap : Snapshot :=
  { identifier := "aurora-snapshot-2024-06-10"
    arn := "arn:aws:rds:us-east-1:123456789012:cluster-snapshot:aurora-snapshot-2024-06-10"
    status := "available"
    snapshotType := "shared"
    allocatedStorage := 100
    storageEncrypted := true
    createTime := some "2024-06-10T01:00:00" }

/-- A describe function that answers the shared scope with `sharedSnap` and
every other scope with an empty list. -/
def sharedOnlyDescribe : String → Except String (List Snapshot) :=
  fun t => if t = "shared" then Except.ok [sharedSnap] else Except.ok []

/-- An automated snapshot matching the name derived for 2024-06-11. -/
def automatedSnap : Snapshot :=
  { identifier := "aurora-snapshot-2024-06-11"
    arn := "arn:aws:rds:us-east-1:123456789012:cluster-snapshot:aurora-snapshot-2024-06-11"
    status := "available"
    snapshotType := "automated"
    allocatedStorage := 100
    storageEncrypted := true
    createTime := some "2024-06-11T01:00:00" }

/-- A describe function under which the snapshot exists only in the
`automated` scope. -/
def automatedOnlyDescribe : String → Except String (List Snapshot) :=
  fun t => if t = "automated" then Except.ok [automatedSnap] else Except.ok []

/-!
Claim theorems.
-/

/-- C1: `trigger_next_step` produces one and the same invocation for every
value of `delay_seconds` - the delay argument is ignored, so
`copy_snapshot`'s dispatch of `check_copy_status` with `delay_seconds=60`
(lines 283-289) yields exactly the invocation a zero-delay call yields, and
nothing defers the successor's visibility. -/
theorem trigger_next_step_ignores_delay (operationId nextStep : String)
    (eventData : Dict) (d1 d2 : Nat) (putOk : Bool) (snapshot_name snapshot_arn
    source_region target_region target_snapshot_name target_snapshot_arn
    copy_status : String) (now : Int) :
    trigger_next_step operationId nextStep eventData d1 =
      trigger_next_step operationId nextStep eventData d2 ∧
    (copy_snapshot_initiated putOk operationId snapshot_name snapshot_arn
        source_region target_region target_snapshot_name target_snapshot_arn
        copy_status now).2.getLast? =
      some (Effect.invoke (trigger_next_step operationId "check_copy_status"
        (copy_snapshot_state operationId snapshot_name snapshot_arn
          source_region target_region target_snapshot_name target_snapshot_arn
          copy_status now) 0)) :=
  ⟨rfl, rfl⟩

/-- C2 counterexample: on a failed prior record, `check_copy_status` emits an
audit event of status `skipped`, not `failed`, and `copy_snapshot` emits no
audit event at all on that path. -/
theorem check_copy_status_prev_failed_audit_not_failed :
    auditStatuses ((check_copy_status_prev_check "op-1718000000-deadbeef"
        prevFailedState).getD ({ statusCode := 0, message := "" }, [])).2 =
      ["skipped"] ∧
    "skipped" ≠ "failed" ∧
    copy_snapshot_prev_check "op-1718000000-deadbeef" prevFailedState =
      some ({ statusCode := 400, message := "Previous step failed" }, []) := by
  refine ⟨rfl, by decide, rfl⟩

/-- C2 amended: on a non-empty prior record whose `success` is falsy, both
cited handlers terminate with "Previous step failed", return 400 and dispatch
nothing; `copy_snapshot` produces no effect at all on this path, and
`check_copy_status` produces a skipped-metric and one audit event whose status
is `skipped`. -/
theorem prev_step_failed_terminates_without_dispatch (operationId : String)
    (state : Dict) (h1 : state.isEmpty = false)
    (h2 : dictTruthy state "success" = false) :
    copy_snapshot_prev_check operationId state =
      some ({ statusCode := 400, message := "Previous step failed" }, []) ∧
    ∃ effs,
      check_copy_status_prev_check operationId state =
        some ({ statusCode := 400, message := "Previous step failed" }, effs) ∧
      effs.filter isInvoke = [] ∧
      auditStatuses effs = ["skipped"] := by
  unfold copy_snapshot_prev_check check_copy_status_prev_check
  rw [h1, h2]
  exact ⟨rfl, _, rfl, rfl, rfl⟩

/-- C2 witness: the amended statement at the concrete failed record. -/
theorem prev_step_failed_terminates_without_dispatch_witness :
    copy_snapshot_prev_check "op-1718000000-deadbeef" prevFailedState =
      some ({ statusCode := 400, message := "Previous step failed" }, []) ∧
    ∃ effs,
      check_copy_status_prev_check "op-1718000000-deadbeef" prevFailedState =
        some ({ statusCode := 400, message := "Previous step failed" }, effs) ∧
      effs.filter isInvoke = [] ∧
      auditStatuses effs = ["skipped"] :=
  prev_step_failed_terminates_without_dispatch "op-1718000000-deadbeef"
    prevFailedState (by decide) (by decide)

/-- C3: when the describe call reports `available`, `check_restore_status`
persists the cluster endpoint, port, engine and engine version with
`success=True` and returns 200 - but its effect list contains no dispatch:
the `available` branch never calls `trigger_next_step`, although the module
imports it (and uses `load_state` without importing it). -/
theorem check_restore_status_available_persists_but_never_dispatches
    (putOk : Bool) (operationId target_cluster_id target_region : String)
    (cluster_endpoint cluster_port engine engine_version : Val) (now : Int) :
    (check_restore_status_available putOk operationId target_cluster_id
        target_region cluster_endpoint cluster_port engine engine_version
        now).1.statusCode = 200 ∧
    (check_restore_status_available putOk operationId target_cluster_id
        target_region cluster_endpoint cluster_port engine engine_version
        now).2.filter isInvoke = [] ∧
    dictGet (check_restore_status_available_state operationId
        target_cluster_id target_region cluster_endpoint cluster_port engine
        engine_version) "cluster_endpoint" = some cluster_endpoint ∧
    dictGet (check_restore_status_available_state operationId
        target_cluster_id target_region cluster_endpoint cluster_port engine
        engine_version) "cluster_port" = some cluster_port ∧
    dictGet (check_restore_status_available_state operationId
        target_cluster_id target_region cluster_endpoint cluster_port engine
        engine_version) "engine" = some engine ∧
    dictGet (check_restore_status_available_state operationId
        target_cluster_id target_region cluster_endpoint cluster_port engine
        engine_version) "engine_version" = some engine_version ∧
    dictGet (check_restore_status_available_state operationId
        target_cluster_id target_region cluster_endpoint cluster_port engine
        engine_version) "success" = some (Val.b true) ∧
    "trigger_next_step" ∈ check_restore_status_imported_names ∧
    "load_state" ∉ check_restore_status_imported_names :=
  ⟨rfl, rfl, rfl, rfl, rfl, rfl, rfl, by decide, by decide⟩

/-- C4: `check_delete_status` behaves identically for every value of
`delete_status_retry_delay`; on a deleted (not-found) cluster it dispatches
`restore_snapshot`, and on a still-deleting cluster its effects contain no
dispatch at all - the handler does not re-enqueue itself. -/
theorem check_delete_status_never_self_dispatches (d1 d2 : Nat)
    (operationId cluster_id region status : String)
    (describeResult : Except String (List String)) :
    check_delete_status_process d1 operationId cluster_id region
        describeResult =
      check_delete_status_process d2 operationId cluster_id region
        describeResult ∧
    (∃ payload effs,
      check_delete_status_process d1 operationId cluster_id region
          (Except.error "DBClusterNotFoundFault") = Except.ok (payload, effs) ∧
      effs.filter isInvoke =
        [Effect.invoke (trigger_next_step operationId "restore_snapshot"
          [("target_cluster_id", Val.s cluster_id),
           ("target_region", Val.s region),
           ("status", Val.s "deleted"),
           ("success", Val.b true)] 0)]) ∧
    (∃ payload effs,
      check_delete_status_process d1 operationId cluster_id region
          (Except.ok [status]) = Except.ok (payload, effs) ∧
      effs.filter isInvoke = []) :=
  ⟨rfl, ⟨_, _, rfl, rfl⟩, ⟨_, _, rfl, rfl⟩⟩

/-- C5 counterexample: a successful `verify_restore` run dispatches
`notify_completion`, not `archive_snapshot`. -/
theorem verify_restore_dispatch_target_is_not_archive_snapshot :
    (verify_restore_success "op-1718000000-deadbeef" "prod-db-restored"
        "prod-db-restored.cluster-abc.eu-west-1.rds.amazonaws.com" 5432
        ["public"] [("public", "accounts")]).2.filter isInvoke =
      [Effect.invoke (trigger_next_step "op-1718000000-deadbeef"
        "notify_completion"
        (verify_restore_state_data "prod-db-restored"
          "prod-db-restored.cluster-abc.eu-west-1.rds.amazonaws.com" 5432
          ["public"] [("public", "accounts")]) 0)] ∧
    (trigger_next_step "op-1718000000-deadbeef" "notify_completion"
        (verify_restore_state_data "prod-db-restored"
          "prod-db-restored.cluster-abc.eu-west-1.rds.amazonaws.com" 5432
          ["public"] [("public", "accounts")]) 0).functionName =
      "aurora-restore-notify_completion" ∧
    "aurora-restore-notify_completion" ≠ "aurora-restore-archive_snapshot" :=
  ⟨rfl, rfl, by decide⟩

/-- C5 amended: every successful `verify_restore` run persists the full
schema info with `success=True`, audits the schema and table counts, and
dispatches `notify_completion` as the next step. -/
theorem verify_restore_persists_schema_info_and_dispatches_notify_completion
    (operationId cluster_id endpoint : String) (port : Int)
    (schemas : List String) (tables : List (String × String)) :
    (verify_restore_success operationId cluster_id endpoint port schemas
        tables).1.statusCode = 200 ∧
    dictGet (verify_restore_state_data cluster_id endpoint port schemas tables)
        "schema_info" = some (Val.infoDict schemas tables) ∧
    dictGet (verify_restore_state_data cluster_id endpoint port schemas tables)
        "success" = some (Val.b true) ∧
    (verify_restore_success operationId cluster_id endpoint port schemas
        tables).2.filter isAudit =
      [Effect.audit operationId "verify_restore" "SUCCESS"
        [("target_cluster_id", Val.s cluster_id),
         ("schema_count", Val.i schemas.length),
         ("table_count", Val.i tables.length)]] ∧
    (verify_restore_success operationId cluster_id endpoint port schemas
        tables).2.filter isInvoke =
      [Effect.invoke (trigger_next_step operationId "notify_completion"
        (verify_restore_state_data cluster_id endpoint port schemas tables)
        0)] :=
  ⟨rfl, rfl, rfl, rfl, rfl⟩

/-- C6 counterexample: a run of the `snapshot_check` body whose state-store
writes both fail (`putOk = false`) still returns statusCode 200. -/
theorem snapshot_check_success_response_despite_failed_save :
    (snapshot_check_core false "op-1718000000-deadbeef" "aurora-snapshot"
        { year := 2024, month := 6, day := 10 } "us-east-1" "prod-db"
        (Val.s "eu-west-1") (Val.s "prod-db-restored") sharedOnlyDescribe
        1718000000).1.statusCode = 200 ∧
    0 < (snapshot_check_core false "op-1718000000-deadbeef" "aurora-snapshot"
        { year := 2024, month := 6, day := 10 } "us-east-1" "prod-db"
        (Val.s "eu-west-1") (Val.s "prod-db-restored") sharedOnlyDescribe
        1718000000).2.countP isFailedSave := by
  exact ⟨rfl, by decide⟩

/-- C6 amended: the handler writes the StepRecord before answering, but
ignores `save_state`'s result: its response is one and the same whether the
writes succeeded or failed. -/
theorem snapshot_check_response_independent_of_save_result
    (putOk1 putOk2 : Bool) (operationId snapPfx : String) (target_date : Date)
    (source_region source_cluster_id : String) (tR tC : Val)
    (describe : String → Except String (List Snapshot)) (now : Int) :
    (snapshot_check_core putOk1 operationId snapPfx target_date source_region
        source_cluster_id tR tC describe now).1 =
      (snapshot_check_core putOk2 operationId snapPfx target_date
        source_region source_cluster_id tR tC describe now).1 ∧
    (snapshot_check_core putOk1 operationId snapPfx target_date source_region
        source_cluster_id tR tC describe now).2.head? =
      some (Effect.save operationId (save_state_item operationId
        (snapshot_check_initial_state operationId
          (snapshot_check_name snapPfx target_date) source_region
          source_cluster_id tR tC now) now) putOk1) := by
  constructor
  · cases hs : snapshot_check_search describe
        (snapshot_check_name snapPfx target_date) <;>
      simp [snapshot_check_core, hs]
  · cases hs : snapshot_check_search describe
        (snapshot_check_name snapPfx target_date) <;>
      simp [snapshot_check_core, hs]

/-- C7 counterexample: for the configured default `aurora-snapshot` on
2024-06-10 with source cluster `prod-db`, the derived name is
`aurora-snapshot-2024-06-10`, not the claimed
`aurora-snapshot-prod-db-2024-06-10`. -/
theorem snapshot_check_name_at_prod_db :
    snapshot_check_name "aurora-snapshot"
        { year := 2024, month := 6, day := 10 } =
      "aurora-snapshot-2024-06-10" ∧
    claimed_snapshot_name "aurora-snapshot" "prod-db"
        { year := 2024, month := 6, day := 10 } =
      "aurora-snapshot-prod-db-2024-06-10" ∧
    snapshot_check_name "aurora-snapshot"
        { year := 2024, month := 6, day := 10 } ≠
      claimed_snapshot_name "aurora-snapshot" "prod-db"
        { year := 2024, month := 6, day := 10 } := by
  refine ⟨by decide, by decide, by decide⟩

/-- A non-empty string has non-zero length. -/
theorem string_length_ne_zero_of_ne_empty (s : String) (h : s ≠ "") :
    s.length ≠ 0 := by
  intro hl
  apply h
  cases s with
  | mk data =>
    cases data with
    | nil => rfl
    | cons c cs => simp [String.length] at hl

/-- C7 amended: whenever the source cluster id is non-empty, the name the code
derives differs from the claimed `{snapshot_prefix}-{source_cluster_id}-{date}`
format; the state the handler persists carries the code's derivation. -/
theorem snapshot_check_name_omits_cluster_id
    (snapPfx source_cluster_id : String) (target_date : Date)
    (h : source_cluster_id ≠ "") :
    snapshot_check_name snapPfx target_date ≠
      claimed_snapshot_name snapPfx source_cluster_id target_date ∧
    ∀ (operationId source_region : String) (tR tC : Val) (snap : Snapshot)
      (now : Int),
      dictGet (snapshot_check_found_state operationId
          (snapshot_check_name snapPfx target_date) source_region
          source_cluster_id tR tC snap now) "snapshot_name" =
        some (Val.s (snapshot_check_name snapPfx target_date)) := by
  constructor
  · intro he
    have hc := string_length_ne_zero_of_ne_empty source_cluster_id h
    have hd : ("-" : String).length = 1 := by decide
    have hl := congrArg String.length he
    simp only [snapshot_check_name, claimed_snapshot_name,
      String.length_append, hd] at hl
    omega
  · intro operationId source_region tR tC snap now
    rfl

/-- C7 witness: the amended statement at a concrete non-empty cluster id. -/
theorem snapshot_check_name_omits_cluster_id_witness :
    snapshot_check_name "aurora-snapshot"
        { year := 2024, month := 6, day := 11 } ≠
      claimed_snapshot_name "aurora-snapshot" "prod-db"
        { year := 2024, month := 6, day := 11 } ∧
    ∀ (operationId source_region : String) (tR tC : Val) (snap : Snapshot)
      (now : Int),
      dictGet (snapshot_check_found_state operationId
          (snapshot_check_name "aurora-snapshot"
            { year := 2024, month := 6, day := 11 }) source_region
          "prod-db" tR tC snap now) "snapshot_name" =
        some (Val.s (snapshot_check_name "aurora-snapshot"
          { year := 2024, month := 6, day := 11 })) :=
  snapshot_check_name_omits_cluster_id "aurora-snapshot" "prod-db"
    { year := 2024, month := 6, day := 11 } (by decide)

/-- C8 counterexample: a snapshot that exists only with scope `automated` (one
of the claim's three scopes) is missed - the search returns nothing and the
handler answers 404 instead of reporting success. -/
theorem snapshot_check_misses_automated_scope :
    snapshot_check_search automatedOnlyDescribe "aurora-snapshot-2024-06-11" =
      Option.none ∧
    (snapshot_check_core true "op-1718100000-cafebabe" "aurora-snapshot"
        { year := 2024, month := 6, day := 11 } "us-east-1" "prod-db"
        (Val.s "eu-west-1") (Val.s "prod-db-restored") automatedOnlyDescribe
        1718100000).1.statusCode = 404 := by
  exact ⟨rfl, rfl⟩

/-- C8 amended: `snapshot_check` searches the `shared` scope and then the
`manual` scope only: the search succeeds exactly when one of those two scopes
holds the name, the `automated` scope's answer is never consulted, and the
handler reports success (200) exactly when the search succeeds. -/
theorem snapshot_check_searches_shared_then_manual_only
    (describe : String → Except String (List Snapshot))
    (snapshot_name : String) (dAuto : Except String (List Snapshot)) :
    (snapshot_check_search describe snapshot_name).isSome =
      ((check_snapshot (describe "shared") snapshot_name).isSome ||
       (check_snapshot (describe "manual") snapshot_name).isSome) ∧
    snapshot_check_search
        (fun t => if t = "automated" then dAuto else describe t)
        snapshot_name =
      snapshot_check_search describe snapshot_name ∧
    (∀ (putOk : Bool) (operationId snapPfx : String) (target_date : Date)
       (source_region source_cluster_id : String) (tR tC : Val) (now : Int),
      (snapshot_check_core putOk operationId snapPfx target_date source_region
          source_cluster_id tR tC describe now).1.statusCode = 200 ↔
        (snapshot_check_search describe
          (snapshot_check_name snapPfx target_date)).isSome) := by
  refine ⟨?_, ?_, ?_⟩
  · unfold snapshot_check_search
    cases h1 : check_snapshot (describe "shared") snapshot_name <;> simp [h1]
  · unfold snapshot_check_search
    simp
  · intro putOk operationId snapPfx target_date source_region
      source_cluster_id tR tC now
    cases hs : snapshot_check_search describe
        (snapshot_check_name snapPfx target_date) <;>
      simp [snapshot_check_core, hs]

/-- C9: with `PORT="abc"` in the environment, the resolver binds `port` to the
unparseable string `"abc"` - the built-in default 5432 is overwritten, not
retained (`_load_from_env_vars` assigns after the failed coercion and
`_validate_config` leaves the string in place). -/
theorem port_env_coercion_failure_binds_string :
    dictGet (ConfigManager_resolve_env_only "dev" "us-east-1" "123456789012"
        [("PORT", "abc")]) "port" = some (Val.s "abc") ∧
    dictGet (ConfigManager_default_config "dev" "us-east-1" "123456789012")
        "port" = some (Val.i 5432) ∧
    Val.s "abc" ≠ Val.i 5432 := by
  exact ⟨by decide, rfl, by decide⟩

/-- The not-found message decomposes around the words "not found". -/
theorem not_found_msg_decomp (snapshot_name source_region : String) :
    snapshot_check_not_found_msg snapshot_name source_region =
      ("Snapshot " ++ snapshot_name ++ " ") ++ "not found" ++
        (" in shared or manual snapshots in region " ++ source_region) := by
  unfold snapshot_check_not_found_msg
  have h : (" not found in shared or manual snapshots in region " : String) =
      " " ++ "not found" ++ " in shared or manual snapshots in region " := by
    decide
  rw [h]
  simp only [String.append_assoc]

/-- C10: when the describe call of every searched scope raises a
`ClientError`, the run is indistinguishable from one where both scopes are
genuinely empty: same effects, a failed StepRecord written last with
`success=False` whose error contains "not found", and a 404 response - never
a 5xx. -/
theorem snapshot_check_scope_errors_reported_as_not_found
    (putOk : Bool) (operationId snapPfx : String) (target_date : Date)
    (source_region source_cluster_id : String) (tR tC : Val) (now : Int)
    (e1 e2 : String) :
    snapshot_check_core putOk operationId snapPfx target_date source_region
        source_cluster_id tR tC
        (fun t => if t = "shared" then Except.error e1 else Except.error e2)
        now =
      snapshot_check_core putOk operationId snapPfx target_date source_region
        source_cluster_id tR tC (fun _ => Except.ok []) now ∧
    (snapshot_check_core putOk operationId snapPfx target_date source_region
        source_cluster_id tR tC
        (fun t => if t = "shared" then Except.error e1 else Except.error e2)
        now).1.statusCode = 404 ∧
    (snapshot_check_core putOk operationId snapPfx target_date source_region
        source_cluster_id tR tC
        (fun t => if t = "shared" then Except.error e1 else Except.error e2)
        now).2.getLast? =
      some (Effect.save operationId (save_state_item operationId
        (snapshot_check_failed_state operationId
          (snapshot_check_name snapPfx target_date) source_region
          source_cluster_id tR tC now) now) putOk) ∧
    dictGet (snapshot_check_failed_state operationId
        (snapshot_check_name snapPfx target_date) source_region
        source_cluster_id tR tC now) "success" = some (Val.b false) ∧
    ∃ pre post,
      (snapshot_check_core putOk operationId snapPfx target_date source_region
          source_cluster_id tR tC
          (fun t => if t = "shared" then Except.error e1 else Except.error e2)
          now).1.message = pre ++ "not found" ++ post :=
  ⟨rfl, rfl, rfl, rfl,
    ⟨"Snapshot " ++ snapshot_check_name snapPfx target_date ++ " ",
     " in shared or manual snapshots in region " ++ source_region,
     not_found_msg_decomp (snapshot_check_name snapPfx target_date)
       source_region⟩⟩
